import Mathlib

/-!
Verification of the bounded-concurrency pagination harness of
`mokalami/neteaseComment` (src/main.rs), centred on
`NeteaseMusicClient::get_user_comments_for_songs` and the per-query
request builders of `NeteaseMusicClient`.

Machine integers of the source (`i32`, `i64`) are modelled as `Int`;
the loop offset, a non-negative `usize`-style counter produced by
`(0..10000).step_by(100)`, as `Nat`.  Fallible HTTP calls are modelled
as `Except String` values supplied by an abstract `server` function,
and the environment-dependent local-time formatting
(`Local.timestamp_millis_opt(..).format("%Y-%m-%d")`) as an abstract
`fmt : Int → String` parameter.
-/

namespace NeteaseComment

/-- A JSON value, standing in for `serde_json::Value` in the record
fields that the source always leaves absent. -/
inductive JsonValue where
  | null : JsonValue
  | bool (b : Bool) : JsonValue
  | num (n : Int) : JsonValue
  | str (s : String) : JsonValue
  | arr (xs : List JsonValue) : JsonValue
  | obj (fields : List (String × JsonValue)) : JsonValue

/-- `struct CommentUser` (src/main.rs lines 165-170). -/
structure CommentUser where
  userId : Int
  nickname : String
  avatarUrl : String

/-- `struct Comment` (src/main.rs lines 156-163). -/
structure Comment where
  commentId : Int
  user : CommentUser
  content : String
  time : Int
  likedCount : Int

/-- `struct CommentResponse` (src/main.rs lines 198-203): the decoded
body of one `/comment/music` page. -/
structure CommentResponse where
  code : Int
  comments : List Comment
  total : Int

/-- `struct VipInfo` (src/main.rs lines 287-295). -/
structure VipInfo where
  associator : Option JsonValue
  musicPackage : Option JsonValue
  redplus : Option JsonValue
  redVipAnnualCount : Int
  redVipLevel : Int
  relationType : Int

/-- `struct IpLocation` (src/main.rs lines 297-302). -/
structure IpLocation where
  IP : Option String
  «地理位置» : String
  «用户ID» : Option JsonValue

/-- `struct UserInfo` (src/main.rs lines 265-285). -/
structure UserInfo where
  «地理位置» : Option JsonValue
  «直播信息» : Option JsonValue
  «是否匿名» : Int
  «头像详情» : Option JsonValue
  «用户类型» : Int
  «头像链接» : String
  «是否关注» : Bool
  «是否互相关注» : Bool
  «备注名» : Option String
  «社交用户ID» : Option JsonValue
  «会员权益» : VipInfo
  «昵称» : String
  «认证状态» : Int
  «专家标签» : Option JsonValue
  «专家» : Option JsonValue
  «会员类型» : Int
  «通用身份» : Option JsonValue
  «用户ID» : Int

/-- `struct CommentOutput` (src/main.rs lines 240-263): the record shape
written to `comments/song_<id>.json`.  `装饰` (`serde_json::Map`) is a
list of key/value pairs. -/
structure CommentOutput where
  «用户» : UserInfo
  «被回复» : List String
  «挂件数据» : Option JsonValue
  «显示楼层评论» : Option JsonValue
  «状态» : Int
  «评论ID» : Int
  «内容» : String
  «富文本内容» : Option JsonValue
  «内容资源» : Option JsonValue
  «时间» : Int
  «时间字符串» : String
  «需要显示时间» : Bool
  «点赞数» : Int
  «表情链接» : Option JsonValue
  «评论位置类型» : Int
  «父评论ID» : Int
  «装饰» : List (String × JsonValue)
  «回复标记» : Option JsonValue
  «等级» : Option JsonValue
  «用户业务等级» : Option JsonValue
  «IP位置» : IpLocation

/-- The per-comment map of the walker (src/main.rs lines 535-590):
builds a `CommentOutput` from a matching `Comment`.  `fmt` abstracts
the local-time date formatting of line 536/574. -/
def toCommentOutput (fmt : Int → String) (comment : Comment) : CommentOutput :=
  { «用户» :=
      { «地理位置» := none
        «直播信息» := none
        «是否匿名» := 0
        «头像详情» := none
        «用户类型» := 0
        «头像链接» := comment.user.avatarUrl
        «是否关注» := false
        «是否互相关注» := false
        «备注名» := none
        «社交用户ID» := none
        «会员权益» :=
          { associator := none
            musicPackage := none
            redplus := none
            redVipAnnualCount := -1
            redVipLevel := 0
            relationType := 0 }
        «昵称» := comment.user.nickname
        «认证状态» := 0
        «专家标签» := none
        «专家» := none
        «会员类型» := 0
        «通用身份» := none
        «用户ID» := comment.user.userId }
    «被回复» := []
    «挂件数据» := none
    «显示楼层评论» := none
    «状态» := 0
    «评论ID» := comment.commentId
    «内容» := comment.content
    «富文本内容» := none
    «内容资源» := none
    «时间» := comment.time
    «时间字符串» := fmt comment.time
    «需要显示时间» := true
    «点赞数» := comment.likedCount
    «表情链接» := none
    «评论位置类型» := 0
    «父评论ID» := 0
    «装饰» := []
    «回复标记» := none
    «等级» := none
    «用户业务等级» := none
    «IP位置» := { IP := none, «地理位置» := "", «用户ID» := none } }

/-- The offsets visited by `for offset in (0..10000).step_by(100)`
(src/main.rs line 526): `0, 100, …, 9900`. -/
def offsets : List Nat := (List.range 100).map (fun i => i * 100)

/-- One walker fetch attempt: the server (the `get_song_comments` HTTP
call for the fixed song at page size 100) maps the offset either to a
decoded `CommentResponse` or to a transport/decode error message. -/
def Server : Type := Nat → Except String CommentResponse

/-- The body of the pagination loop of `get_user_comments_for_songs`
(src/main.rs lines 526-610), instrumented with the trace of offsets
actually fetched and of the offsets at which `song_progress.inc(5)`
fired.  Returns `(fetched offsets, inc offsets, accumulated filtered
outputs)`.  Per iteration, following the source order: fetch at `off`;
on `Ok`, filter the page by `comment.user.userId == target_uid`, map
through `toCommentOutput`, extend the accumulator, fire `inc(5)` when
`off % 500 == 0`, and break when the page holds fewer than 100
comments; on `Err`, log and break. -/
def walkLoop (server : Server) (target_uid : Int) (fmt : Int → String) :
    List Nat → List Nat × List Nat × List CommentOutput
  | [] => ([], [], [])
  | off :: rest =>
    match server off with
    | Except.ok response =>
      let user_comments :=
        (response.comments.filter (fun comment => comment.user.userId == target_uid)).map
          (toCommentOutput fmt)
      let incs : List Nat := if off % 500 == 0 then [off] else []
      if response.comments.length < 100 then
        ([off], incs, user_comments)
      else
        let r := walkLoop server target_uid fmt rest
        (off :: r.1, incs ++ r.2.1, user_comments ++ r.2.2)
    | Except.error _ => ([off], [], [])

/-- Observable outcome of one item's walker (src/main.rs lines 521-626).
`incOffsets` records one entry per `song_progress.inc(5)` call (each
increment is by the fixed amount 5); `flushes` records each file write
of lines 613-620 with its path and payload; `overallInc` counts the
`total_progress.inc(1)` calls of line 623. -/
structure WalkResult where
  fetchOffsets : List Nat
  incOffsets : List Nat
  comments : List CommentOutput
  flushes : List (String × List CommentOutput)
  overallInc : Nat

/-- One item's walker, assembled from the loop plus the post-loop code
of src/main.rs lines 612-623: write `comments/song_<id>.json` iff the
accumulated vector is non-empty, then bump the overall progress bar by
one. -/
def walkSong (server : Server) (target_uid : Int) (fmt : Int → String)
    (song_id : Int) : WalkResult :=
  let r := walkLoop server target_uid fmt offsets
  { fetchOffsets := r.1
    incOffsets := r.2.1
    comments := r.2.2
    flushes :=
      if r.2.2.isEmpty then []
      else [("comments/song_" ++ toString song_id ++ ".json", r.2.2)]
    overallInc := 1 }

/-- The contribution of the page at offset `off` to the accumulated
result: the page's comments authored by `target_uid`, in page order,
mapped through `toCommentOutput`; an errored fetch contributes
nothing. -/
def pageMatch (server : Server) (target_uid : Int) (fmt : Int → String)
    (off : Nat) : List CommentOutput :=
  match server off with
  | Except.ok response =>
    (response.comments.filter (fun comment => comment.user.userId == target_uid)).map
      (toCommentOutput fmt)
  | Except.error _ => []

/-- Whether the fetch at `off` succeeds. -/
def fetchOk (server : Server) (off : Nat) : Bool :=
  match server off with
  | Except.ok _ => true
  | Except.error _ => false

/-- Whether the loop breaks right after the fetch at `off`: either the
fetch errs, or the page is short (fewer than 100 comments). -/
def stopsAt (server : Server) (off : Nat) : Bool :=
  match server off with
  | Except.ok response => decide (response.comments.length < 100)
  | Except.error _ => true

/-! ### Request builders of `NeteaseMusicClient`

Each non-login query of the client (src/main.rs lines 353-480) builds
one GET request whose `Cookie` header is `self.cookie.as_ref().unwrap()`.
Construction is modelled as an `Option Request`: `none` stands for the
panic that `unwrap` raises when the stored cookie is `None`. -/

def API_BASE_URL : String := "https://netease-delta-ten.vercel.app"

/-- A fully built GET request: URL, query parameters, and the value of
the `Cookie` header. -/
structure Request where
  url : String
  query : List (String × String)
  cookieHeader : String

/-- `self.cookie.as_ref().unwrap()` followed by request assembly:
succeeds exactly when a cookie is stored. -/
def withCookie (cookie : Option String) (url : String)
    (query : List (String × String)) : Option Request :=
  cookie.map (fun ck => { url := url, query := query, cookieHeader := ck })

/-- `NeteaseMusicClient::new` (src/main.rs lines 310-315) stores no
cookie. -/
def newClientCookie : Option String := none

/-- Request of `get_user_profile` (src/main.rs lines 353-366). -/
def get_user_profile_req (cookie : Option String) (uid : Int) : Option Request :=
  withCookie cookie (API_BASE_URL ++ "/user/detail") [("uid", toString uid)]

/-- Request of `get_user_record` (src/main.rs lines 368-381). -/
def get_user_record_req (cookie : Option String) (uid : Int) : Option Request :=
  withCookie cookie (API_BASE_URL ++ "/user/record")
    [("uid", toString uid), ("type", "0")]

/-- Request of `get_user_playlists` (src/main.rs lines 384-401). -/
def get_user_playlists_req (cookie : Option String) (uid : Int)
    (limit offset : Option Int) : Option Request :=
  withCookie cookie (API_BASE_URL ++ "/user/playlist")
    [("uid", toString uid), ("limit", toString (limit.getD 30)),
     ("offset", toString (offset.getD 0))]

/-- Request of `get_user_follows` (src/main.rs lines 404-421). -/
def get_user_follows_req (cookie : Option String) (uid : Int)
    (limit offset : Option Int) : Option Request :=
  withCookie cookie (API_BASE_URL ++ "/user/follows")
    [("uid", toString uid), ("limit", toString (limit.getD 30)),
     ("offset", toString (offset.getD 0))]

/-- Request of `get_user_followeds` (src/main.rs lines 424-441). -/
def get_user_followeds_req (cookie : Option String) (uid : Int)
    (limit offset : Option Int) : Option Request :=
  withCookie cookie (API_BASE_URL ++ "/user/followeds")
    [("uid", toString uid), ("limit", toString (limit.getD 30)),
     ("offset", toString (offset.getD 0))]

/-- Request of `follow_user` (src/main.rs lines 444-460). -/
def follow_user_req (cookie : Option String) (uid : Int) (follow : Bool) :
    Option Request :=
  withCookie cookie (API_BASE_URL ++ "/follow")
    [("id", toString uid), ("t", if follow then "1" else "0")]

/-- Request of `get_song_comments` (src/main.rs lines 463-480). -/
def get_song_comments_req (cookie : Option String) (song_id limit offset : Int) :
    Option Request :=
  withCookie cookie (API_BASE_URL ++ "/comment/music")
    [("id", toString song_id), ("limit", toString limit),
     ("offset", toString offset)]

/-! ### Concurrency gate

`get_user_comments_for_songs` wraps each per-song task in
`tokio::sync::Semaphore::new(50)` (src/main.rs line 491): the task
acquires one permit before its pagination loop (line 522) and releases
it when `_permit` drops at task end.  The semaphore is modelled as a
transition system on the number of tasks currently holding a permit:
`acquire` is enabled only when a permit is free (fewer than `cap`
holders), which is exactly the blocking behaviour of
`Semaphore::acquire`. -/

/-- Number of tasks currently holding a semaphore permit. -/
structure GateState where
  active : Nat

/-- The concurrency cap: `Semaphore::new(50)` (src/main.rs line 491);
`buffer_unordered(50)` (line 631) uses the same bound. -/
def gateCap : Nat := 50

/-- One semaphore event: a task is admitted (only when a permit is
free) or a finished task drops its permit. -/
inductive GateStep (cap : Nat) : GateState → GateState → Prop where
  | acquire (s : GateState) : s.active < cap → GateStep cap s ⟨s.active + 1⟩
  | release (s : GateState) : 0 < s.active → GateStep cap s ⟨s.active - 1⟩

/-- States reachable from the initial state (no holders) by semaphore
events. -/
inductive GateReachable (cap : Nat) : GateState → Prop where
  | init : GateReachable cap ⟨0⟩
  | step {s t : GateState} : GateReachable cap s → GateStep cap s t →
      GateReachable cap t

/-! ### Concrete servers used as test inputs -/

/-- A comment with the given author id and comment id. -/
def mkComment (author_uid : Int) (cid : Int) : Comment :=
  { commentId := cid
    user := { userId := author_uid, nickname := "n", avatarUrl := "a" }
    content := "c"
    time := 0
    likedCount := 0 }

/-- A server whose every page is empty (0 comments: short page at the
first fetch). -/
def emptySrv : Server := fun _ => Except.ok { code := 200, comments := [], total := 0 }

/-- A server whose every fetch fails. -/
def errSrv : Server := fun _ => Except.error "boom"

/-- The spec scenario server: page at offset 0 holds 100 comments with
no match for target uid 7; page at offset 100 holds 40 comments of
which exactly 2 match; later pages (never reached) are empty. -/
def scenarioSrv : Server := fun off =>
  if off = 0 then
    Except.ok { code := 200, comments := List.replicate 100 (mkComment 1 0), total := 140 }
  else if off = 100 then
    Except.ok
      { code := 200
        comments := List.replicate 38 (mkComment 1 0) ++ [mkComment 7 1, mkComment 7 2]
        total := 140 }
  else Except.ok { code := 200, comments := [], total := 140 }

/-- A trivial date formatting. -/
def noFmt : Int → String := fun _ => ""

/-! ### Structural lemmas about the pagination loop -/

/-- The offsets actually fetched are an initial segment of the offsets
the `for` loop ranges over. -/
theorem walkLoop_trace_take (server : Server) (target_uid : Int)
    (fmt : Int → String) (offs : List Nat) :
    ∃ k, (walkLoop server target_uid fmt offs).1 = offs.take k := by
  induction offs with
  | nil => exact ⟨0, rfl⟩
  | cons off rest ih =>
    cases h : server off with
    | ok response =>
      by_cases hlen : response.comments.length < 100
      · exact ⟨1, by simp [walkLoop, h, hlen]⟩
      · obtain ⟨k, hk⟩ := ih
        exact ⟨k + 1, by simp [walkLoop, h, hlen, hk]⟩
    | error e => exact ⟨1, by simp [walkLoop, h]⟩

/-- The accumulated output is the concatenation, in fetch order, of the
per-page filtered contributions of the fetched pages. -/
theorem walkLoop_comments_eq (server : Server) (target_uid : Int)
    (fmt : Int → String) (offs : List Nat) :
    (walkLoop server target_uid fmt offs).2.2 =
      ((walkLoop server target_uid fmt offs).1.map
        (pageMatch server target_uid fmt)).flatten := by
  induction offs with
  | nil => rfl
  | cons off rest ih =>
    cases h : server off with
    | ok response =>
      by_cases hlen : response.comments.length < 100
      · simp [walkLoop, h, hlen, pageMatch]
      · simp [walkLoop, h, hlen, pageMatch, ih]
    | error e => simp [walkLoop, h, pageMatch]

/-- The progress-bar increments fire exactly on the successfully
fetched pages whose offset is a multiple of 500. -/
theorem walkLoop_incs_eq (server : Server) (target_uid : Int)
    (fmt : Int → String) (offs : List Nat) :
    (walkLoop server target_uid fmt offs).2.1 =
      (walkLoop server target_uid fmt offs).1.filter
        (fun off => fetchOk server off && (off % 500 == 0)) := by
  induction offs with
  | nil => rfl
  | cons off rest ih =>
    cases h : server off with
    | ok response =>
      by_cases hlen : response.comments.length < 100
      · by_cases hm : off % 500 == 0 <;> simp [walkLoop, h, hlen, fetchOk, hm]
      · by_cases hm : off % 500 == 0 <;> simp [walkLoop, h, hlen, fetchOk, hm, ih]
    | error e => simp [walkLoop, h, fetchOk]

/-- If the fetch at `off` stops the loop (error or short page), then
once `off` is fetched at all it is the last fetched offset. -/
theorem walkLoop_stop_last (server : Server) (target_uid : Int)
    (fmt : Int → String) (offs : List Nat) (off : Nat)
    (hmem : off ∈ (walkLoop server target_uid fmt offs).1)
    (hstop : stopsAt server off = true) :
    ∃ pre, (walkLoop server target_uid fmt offs).1 = pre ++ [off] := by
  induction offs with
  | nil => simp [walkLoop] at hmem
  | cons o rest ih =>
    cases h : server o with
    | ok response =>
      by_cases hlen : response.comments.length < 100
      · simp only [walkLoop, h, hlen, if_pos] at hmem ⊢
        simp at hmem
        exact ⟨[], by simp [hmem]⟩
      · simp only [walkLoop, h, hlen, if_neg] at hmem ⊢
        simp at hmem
        rcases hmem with rfl | hmem
        · rw [stopsAt, h] at hstop
          simp at hstop
          exact absurd hstop hlen
        · obtain ⟨pre, hpre⟩ := ih hmem
          exact ⟨o :: pre, by simp [hpre]⟩
    | error e =>
      simp only [walkLoop, h] at hmem ⊢
      simp at hmem
      exact ⟨[], by simp [hmem]⟩

/-- If every fetch fails, the loop accumulates nothing. -/
theorem walkLoop_all_err (server : Server) (target_uid : Int)
    (fmt : Int → String) (hall : ∀ o, fetchOk server o = false) :
    ∀ offs, (walkLoop server target_uid fmt offs).2.2 = [] := by
  intro offs
  cases offs with
  | nil => rfl
  | cons o rest =>
    cases h : server o with
    | ok response =>
      have := hall o
      rw [fetchOk, h] at this
      simp at this
    | error e => simp [walkLoop, h]

/-- The file write happens at most once and exactly when the
accumulated result set is non-empty. -/
theorem walkSong_flushes_spec (server : Server) (target_uid : Int)
    (fmt : Int → String) (song_id : Int) :
    (walkSong server target_uid fmt song_id).flushes.length ≤ 1 ∧
    ((walkSong server target_uid fmt song_id).flushes ≠ [] ↔
      (walkSong server target_uid fmt song_id).comments ≠ []) := by
  have hfl : (walkSong server target_uid fmt song_id).flushes =
      (if (walkLoop server target_uid fmt offsets).2.2.isEmpty then []
       else [("comments/song_" ++ toString song_id ++ ".json",
              (walkLoop server target_uid fmt offsets).2.2)]) := rfl
  have hcm : (walkSong server target_uid fmt song_id).comments =
      (walkLoop server target_uid fmt offsets).2.2 := rfl
  rw [hfl, hcm]
  cases hc : (walkLoop server target_uid fmt offsets).2.2 with
  | nil => simp
  | cons a t => simp

/-! ### The claims -/

/-- C1: if a fetch returns a page with fewer than 100 (= pageSize)
records, the walker issues no further fetch calls for that item — the
short page's offset is the last entry of the fetch trace — and the
page's matching records are still filtered and appended at the end of
the accumulated result before the loop stops. -/
theorem short_page_ends_walk (server : Server) (target_uid : Int)
    (fmt : Int → String) (song_id : Int) (off : Nat)
    (response : CommentResponse)
    (hok : server off = Except.ok response)
    (hshort : response.comments.length < 100)
    (hmem : off ∈ (walkSong server target_uid fmt song_id).fetchOffsets) :
    (∃ pre, (walkSong server target_uid fmt song_id).fetchOffsets = pre ++ [off]) ∧
    (∃ before, (walkSong server target_uid fmt song_id).comments =
      before ++ (response.comments.filter
        (fun comment => comment.user.userId == target_uid)).map
          (toCommentOutput fmt)) := by
  have hstop : stopsAt server off = true := by
    rw [stopsAt, hok]
    simpa using hshort
  have hmem' : off ∈ (walkLoop server target_uid fmt offsets).1 := hmem
  obtain ⟨pre, hpre⟩ :=
    walkLoop_stop_last server target_uid fmt offsets off hmem' hstop
  refine ⟨⟨pre, hpre⟩,
    ⟨(pre.map (pageMatch server target_uid fmt)).flatten, ?_⟩⟩
  have hc := walkLoop_comments_eq server target_uid fmt offsets
  show (walkLoop server target_uid fmt offsets).2.2 = _
  rw [hc, hpre]
  simp [pageMatch, hok]

/-- C1 witness: a server whose first page is empty stops after the very
first fetch, at offset 0. -/
theorem short_page_ends_walk_witness :
    (∃ pre, (walkSong emptySrv 1 noFmt 5).fetchOffsets = pre ++ [0]) ∧
    (∃ before, (walkSong emptySrv 1 noFmt 5).comments =
      before ++ (List.filter (fun comment => comment.user.userId == (1 : Int)) []).map
        (toCommentOutput noFmt)) :=
  short_page_ends_walk emptySrv 1 noFmt 5 0
    { code := 200, comments := [], total := 0 } rfl (by decide) (by decide)

/-- C2: the offsets passed to the fetch collaborator are exactly
`0, 100, 200, …`: an initial segment of the arithmetic progression with
step pageSize = 100 starting at 0, hence strictly increasing with no
gaps, until termination. -/
theorem fetch_offsets_progression (server : Server) (target_uid : Int)
    (fmt : Int → String) (song_id : Int) :
    ∃ k, k ≤ 100 ∧
      (walkSong server target_uid fmt song_id).fetchOffsets =
        (List.range k).map (fun i => i * 100) := by
  obtain ⟨k, hk⟩ := walkLoop_trace_take server target_uid fmt offsets
  refine ⟨min k 100, Nat.min_le_right k 100, ?_⟩
  show (walkLoop server target_uid fmt offsets).1 = _
  rw [hk]
  simp only [offsets]
  rw [← List.map_take, List.take_range]

/-- C3: regardless of server responses, the walker never requests an
offset ≥ maxOffset = 10000, and makes at most 100 fetch calls per
item. -/
theorem hard_stop_bound (server : Server) (target_uid : Int)
    (fmt : Int → String) (song_id : Int) :
    (walkSong server target_uid fmt song_id).fetchOffsets.all
      (fun off => decide (off < 10000)) = true ∧
    (walkSong server target_uid fmt song_id).fetchOffsets.length ≤ 100 := by
  obtain ⟨k, hk⟩ := walkLoop_trace_take server target_uid fmt offsets
  have hshow : (walkSong server target_uid fmt song_id).fetchOffsets =
      offsets.take k := hk
  constructor
  · rw [hshow]
    simp only [List.all_eq_true, decide_eq_true_eq]
    intro off hoff
    have hmem : off ∈ offsets := List.take_subset k offsets hoff
    simp only [offsets, List.mem_map, List.mem_range] at hmem
    obtain ⟨i, hi, rfl⟩ := hmem
    omega
  · rw [hshow, List.length_take]
    simp only [offsets, List.length_map, List.length_range]
    omega

/-- C4: per item the sink flush (the write of
`comments/song_<id>.json`) is invoked at most once, and exactly when
the accumulated filtered result set at loop exit is non-empty. -/
theorem flush_at_most_once (server : Server) (target_uid : Int)
    (fmt : Int → String) (song_id : Int) :
    (walkSong server target_uid fmt song_id).flushes.length ≤ 1 ∧
    ((walkSong server target_uid fmt song_id).flushes ≠ [] ↔
      (walkSong server target_uid fmt song_id).comments ≠ []) :=
  walkSong_flushes_spec server target_uid fmt song_id

/-- C5: a fetch error aborts the loop at that offset without any retry
— the erroring offset is the last entry of the fetch trace — while the
results accumulated from the pages fetched before the error are
preserved (the accumulated set is exactly the contribution of the
earlier pages) and still flushed exactly when non-empty. -/
theorem error_aborts_walk (server : Server) (target_uid : Int)
    (fmt : Int → String) (song_id : Int) (off : Nat) (e : String)
    (herr : server off = Except.error e)
    (hmem : off ∈ (walkSong server target_uid fmt song_id).fetchOffsets) :
    (∃ pre, (walkSong server target_uid fmt song_id).fetchOffsets = pre ++ [off]) ∧
    (walkSong server target_uid fmt song_id).comments =
      (((walkSong server target_uid fmt song_id).fetchOffsets.dropLast).map
        (pageMatch server target_uid fmt)).flatten ∧
    ((walkSong server target_uid fmt song_id).flushes ≠ [] ↔
      (walkSong server target_uid fmt song_id).comments ≠ []) := by
  have hstop : stopsAt server off = true := by rw [stopsAt, herr]
  have hmem' : off ∈ (walkLoop server target_uid fmt offsets).1 := hmem
  obtain ⟨pre, hpre⟩ :=
    walkLoop_stop_last server target_uid fmt offsets off hmem' hstop
  have hfetch : (walkSong server target_uid fmt song_id).fetchOffsets =
      (walkLoop server target_uid fmt offsets).1 := rfl
  refine ⟨⟨pre, hpre⟩, ?_, (walkSong_flushes_spec server target_uid fmt song_id).2⟩
  have hc := walkLoop_comments_eq server target_uid fmt offsets
  show (walkLoop server target_uid fmt offsets).2.2 = _
  rw [hfetch, hc, hpre, List.dropLast_concat]
  simp [pageMatch, herr]

/-- C5 witness: the always-failing server aborts at the first fetch
with nothing accumulated and nothing flushed. -/
theorem error_aborts_walk_witness :
    (∃ pre, (walkSong errSrv 1 noFmt 5).fetchOffsets = pre ++ [0]) ∧
    (walkSong errSrv 1 noFmt 5).comments =
      (((walkSong errSrv 1 noFmt 5).fetchOffsets.dropLast).map
        (pageMatch errSrv 1 noFmt)).flatten ∧
    ((walkSong errSrv 1 noFmt 5).flushes ≠ [] ↔
      (walkSong errSrv 1 noFmt 5).comments ≠ []) :=
  error_aborts_walk errSrv 1 noFmt 5 0 "boom" rfl (by decide)

/-- C6: the overall-completion counter is incremented exactly once per
item regardless of outcome; in particular when every fetch errors,
nothing is flushed for the item yet the overall counter still
increments by 1. -/
theorem overall_inc_once (server : Server) (target_uid : Int)
    (fmt : Int → String) (song_id : Int) :
    (walkSong server target_uid fmt song_id).overallInc = 1 ∧
    ((∀ o, fetchOk server o = false) →
      (walkSong server target_uid fmt song_id).flushes = [] ∧
      (walkSong server target_uid fmt song_id).overallInc = 1) := by
  refine ⟨rfl, fun hall => ⟨?_, rfl⟩⟩
  have hempty := walkLoop_all_err server target_uid fmt hall offsets
  have hfl : (walkSong server target_uid fmt song_id).flushes =
      (if (walkLoop server target_uid fmt offsets).2.2.isEmpty then []
       else [("comments/song_" ++ toString song_id ++ ".json",
              (walkLoop server target_uid fmt offsets).2.2)]) := rfl
  rw [hfl, hempty]
  rfl

/-- C6 witness: the always-failing server flushes nothing but the
overall counter still increments once. -/
theorem overall_inc_once_witness :
    (walkSong errSrv 1 noFmt 5).flushes = [] ∧
    (walkSong errSrv 1 noFmt 5).overallInc = 1 :=
  (overall_inc_once errSrv 1 noFmt 5).2 (fun _ => rfl)

/-- Spec-side reading of C7: the per-item increment fires exactly after
every 5th successfully processed page — i.e. on the pages at trace
indices 4, 9, 14, … — and on no other page. -/
def everyFifthPage (t : List Nat) : List Nat :=
  (t.enum.filter (fun p => (p.1 + 1) % 5 == 0)).map Prod.snd

/-- C7 counterexample: with a server whose first page is already short
(0 records), exactly one page is processed — not a 5th page — yet the
source fires `song_progress.inc(5)` on it, because its guard is
`offset % 500 == 0` and the first page has offset 0.  So the claim
"the counter is incremented after every 5th successfully processed
page and no increment occurs on other pages" is false. -/
theorem inc_fires_on_first_page :
    ¬ (∀ (server : Server) (target_uid : Int) (fmt : Int → String) (song_id : Int),
        (walkSong server target_uid fmt song_id).incOffsets =
          everyFifthPage (walkSong server target_uid fmt song_id).fetchOffsets) := by
  intro hclaim
  exact absurd (hclaim emptySrv 1 noFmt 5) (by decide)

/-- C7 (amended): the per-item counter is incremented, by 5 each time,
exactly on the successfully fetched pages whose offset is a multiple of
500 — the 1st, 6th, 11th, … pages — i.e. once every 5 pages starting
with the first page, not after every 5th page; no increment occurs on
other pages. -/
theorem inc_every_five_pages (server : Server) (target_uid : Int)
    (fmt : Int → String) (song_id : Int) :
    (walkSong server target_uid fmt song_id).incOffsets =
      (walkSong server target_uid fmt song_id).fetchOffsets.filter
        (fun off => fetchOk server off && (off % 500 == 0)) :=
  walkLoop_incs_eq server target_uid fmt offsets

/-- C8: the accumulated result is exactly the per-page filtered
matches (author user id equal to the target), concatenated in page
order; and in the spec's two-page scenario (100 non-matching records
at offset 0, then 40 records with 2 matches at offset 100) the result
holds exactly 2 records after exactly 2 fetch calls. -/
theorem filtered_accumulation :
    (∀ (server : Server) (target_uid : Int) (fmt : Int → String) (song_id : Int),
      (walkSong server target_uid fmt song_id).comments =
        ((walkSong server target_uid fmt song_id).fetchOffsets.map
          (pageMatch server target_uid fmt)).flatten) ∧
    (walkSong scenarioSrv 7 noFmt 1).comments.length = 2 ∧
    (walkSong scenarioSrv 7 noFmt 1).fetchOffsets = [0, 100] := by
  refine ⟨fun server target_uid fmt song_id =>
    walkLoop_comments_eq server target_uid fmt offsets, by decide, by decide⟩

/-- C9: in every state reachable by semaphore events from the initial
state, the number of tasks concurrently holding a ConcurrencyGate slot
never exceeds the cap of 50. -/
theorem gate_never_exceeds_cap (s : GateState)
    (h : GateReachable gateCap s) : s.active ≤ gateCap := by
  induction h with
  | init => exact Nat.zero_le _
  | step hr hstep ih =>
    cases hstep with
    | acquire hlt => exact hlt
    | release hpos =>
      show _ - 1 ≤ _
      omega

/-- C9 witness: the state with one holder, reached by a single
admission, respects the cap. -/
theorem gate_never_exceeds_cap_witness : (GateState.mk 1).active ≤ gateCap :=
  gate_never_exceeds_cap ⟨1⟩
    (GateReachable.step GateReachable.init (GateStep.acquire ⟨0⟩ (by decide)))

/-- C10: every remote query other than login unconditionally unwraps
the stored cookie: on a freshly constructed client (cookie `None`, as
before any login) request construction panics — modelled as `none` —
while with any stored cookie it succeeds; no error value is ever
returned for a missing cookie. -/
theorem queries_unwrap_cookie :
    newClientCookie = none ∧
    (∀ uid : Int, get_user_profile_req none uid = none) ∧
    (∀ (uid : Int) (ck : String), (get_user_profile_req (some ck) uid).isSome = true) ∧
    (∀ uid : Int, get_user_record_req none uid = none) ∧
    (∀ (uid : Int) (ck : String), (get_user_record_req (some ck) uid).isSome = true) ∧
    (∀ (uid : Int) (l o : Option Int), get_user_playlists_req none uid l o = none) ∧
    (∀ (uid : Int) (l o : Option Int) (ck : String),
      (get_user_playlists_req (some ck) uid l o).isSome = true) ∧
    (∀ (uid : Int) (l o : Option Int), get_user_follows_req none uid l o = none) ∧
    (∀ (uid : Int) (l o : Option Int) (ck : String),
      (get_user_follows_req (some ck) uid l o).isSome = true) ∧
    (∀ (uid : Int) (l o : Option Int), get_user_followeds_req none uid l o = none) ∧
    (∀ (uid : Int) (l o : Option Int) (ck : String),
      (get_user_followeds_req (some ck) uid l o).isSome = true) ∧
    (∀ (uid : Int) (b : Bool), follow_user_req none uid b = none) ∧
    (∀ (uid : Int) (b : Bool) (ck : String),
      (follow_user_req (some ck) uid b).isSome = true) ∧
    (∀ sid l o : Int, get_song_comments_req none sid l o = none) ∧
    (∀ (sid l o : Int) (ck : String),
      (get_song_comments_req (some ck) sid l o).isSome = true) :=
  ⟨rfl, fun _ => rfl, fun _ _ => rfl, fun _ => rfl, fun _ _ => rfl,
   fun _ _ _ => rfl, fun _ _ _ _ => rfl, fun _ _ _ => rfl, fun _ _ _ _ => rfl,
   fun _ _ _ => rfl, fun _ _ _ _ => rfl, fun _ _ => rfl, fun _ _ _ => rfl,
   fun _ _ _ => rfl, fun _ _ _ _ => rfl⟩

end NeteaseComment
